import Mathlib

/-!
Verification of the bikealert command-line utility.

The development shallowly embeds the Go sources:
* `cmd/bikealert/main.go` — the `run` control flow, `getEnvFloat`,
  `hsin`/`distance` (haversine), and the `sort.Slice`-based proximity ranking;
* the `jump` package — `Client.Bikes` / `Client.Hubs` HTTP fetches and their
  JSON envelope decoding.

Floating-point `float64` arithmetic is modelled over `ℝ`; Go slices become
`List`; a Go slice expression `xs[:5]` (which panics when `len(xs) < 5`)
becomes an `Option`-returning operation; fallible Go calls return `Except`.
-/

namespace BikeAlert

/-- Embeds `hsin` from `cmd/bikealert/main.go`:
`math.Pow(math.Sin(theta/2), 2)`. -/
noncomputable def hsin (theta : ℝ) : ℝ := Real.sin (theta / 2) ^ 2

/-- Embeds `distance` from `cmd/bikealert/main.go`: inputs in decimal degrees
are converted to radians, the haversine term `h` is formed, and the result is
`2 * r * asin(sqrt h)` with `r = 3958.756` miles.  The Go local variables
`la1, lo1, la2, lo2` are inlined. -/
noncomputable def distance (lat1 lon1 lat2 lon2 : ℝ) : ℝ :=
  2 * 3958.756 * Real.arcsin (Real.sqrt
    (hsin (lat2 * Real.pi / 180 - lat1 * Real.pi / 180) +
      Real.cos (lat1 * Real.pi / 180) * Real.cos (lat2 * Real.pi / 180) *
        hsin (lon2 * Real.pi / 180 - lon1 * Real.pi / 180)))

lemma hsin_sub_comm (a b : ℝ) : hsin (a - b) = hsin (b - a) := by
  unfold hsin
  rw [show a - b = -(b - a) by ring, neg_div, Real.sin_neg]
  ring

/-- Claim C8: for every pair of coordinates, the haversine distance function
is symmetric: `distance lat1 lon1 lat2 lon2 = distance lat2 lon2 lat1 lon1`. -/
theorem C8_distance_symm (lat1 lon1 lat2 lon2 : ℝ) :
    distance lat1 lon1 lat2 lon2 = distance lat2 lon2 lat1 lon1 := by
  unfold distance
  rw [hsin_sub_comm (lat2 * Real.pi / 180) (lat1 * Real.pi / 180),
    hsin_sub_comm (lon2 * Real.pi / 180) (lon1 * Real.pi / 180),
    mul_comm (Real.cos (lat1 * Real.pi / 180)) (Real.cos (lat2 * Real.pi / 180))]

/-- On the equator the haversine formula degenerates: a point at longitude
`lng ∈ [0, 180]` degrees is exactly `3958.756 * π * lng / 180` miles from the
origin `(0, 0)`. -/
lemma distance_equator (lng : ℝ) (h0 : 0 ≤ lng) (h1 : lng ≤ 180) :
    distance 0 0 0 lng = 3958.756 * Real.pi * lng / 180 := by
  have hpi := Real.pi_pos
  unfold distance hsin
  rw [show (0 : ℝ) * Real.pi / 180 - 0 * Real.pi / 180 = 0 by ring,
    show lng * Real.pi / 180 - 0 * Real.pi / 180 = lng * Real.pi / 180 by ring,
    show (0 : ℝ) * Real.pi / 180 = 0 by ring, Real.cos_zero,
    show (0 : ℝ) / 2 = 0 by ring, Real.sin_zero]
  have harg0 : 0 ≤ lng * Real.pi / 180 / 2 := by positivity
  have harg1 : lng * Real.pi / 180 / 2 ≤ Real.pi / 2 := by nlinarith
  have hx : Real.sqrt ((0 : ℝ) ^ 2 + 1 * 1 * Real.sin (lng * Real.pi / 180 / 2) ^ 2)
      = Real.sin (lng * Real.pi / 180 / 2) := by
    rw [show (0 : ℝ) ^ 2 + 1 * 1 * Real.sin (lng * Real.pi / 180 / 2) ^ 2
        = Real.sin (lng * Real.pi / 180 / 2) ^ 2 by ring]
    exact Real.sqrt_sq (Real.sin_nonneg_of_nonneg_of_le_pi harg0 (by linarith))
  rw [hx, Real.arcsin_sin (by linarith) harg1]
  ring

/-- Claim C5: on the known fixture, the distance between `(0,0)` and `(0,1)`
degrees is approximately `69.17` miles, within a `0.5%` tolerance (the
`distance` definition above is the haversine formula with earth radius
`R = 3958.756` miles over decimal-degree inputs). -/
theorem C5_distance_fixture : |distance 0 0 0 1 - 69.17| ≤ 0.005 * 69.17 := by
  rw [distance_equator 1 (by norm_num) (by norm_num), abs_le]
  constructor <;> nlinarith [Real.pi_gt_d6, Real.pi_lt_d6]

/-- Embeds `jump.Position`: `Coordinates` is documented as a two-element list
in GeoJSON `[longitude, latitude]` order; it is modelled as a pair whose first
component is the longitude and whose second is the latitude. -/
structure Position where
  coordinates : ℝ × ℝ

/-- Embeds `jump.Bike`, keeping the fields `main.go` reads
(`Name`, `Address`, `EbikeBatteryLevel`, `CurrentPosition`); the remaining
JSON fields are never consumed by the program logic under verification. -/
structure Bike where
  name : String
  address : String
  ebikeBatteryLevel : Int
  currentPosition : Position

/-- Embeds `jump.Hub`, keeping the fields `main.go` reads. -/
structure Hub where
  name : String
  address : String
  availableBikes : Int
  availableEbikes : Int
  middlePoint : Position

/-- The sort key used by the ranking closure in `run`
(`main.go` lines 53-58): `distance(latitude, longitude, loc[1], loc[0])`,
where `loc` is the bike's `[longitude, latitude]` coordinate pair. -/
noncomputable def bikeDistance (lat lng : ℝ) (b : Bike) : ℝ :=
  distance lat lng b.currentPosition.coordinates.2 b.currentPosition.coordinates.1

/-- The `less` comparison passed to `sort.Slice` for bikes in `run`:
`iDistance < jDistance`. -/
noncomputable def bikeLess (lat lng : ℝ) (b1 b2 : Bike) : Prop :=
  bikeDistance lat lng b1 < bikeDistance lat lng b2

/-- Contract of Go's `sort.Slice(input, less)` (the algorithm itself lives in
the Go standard library, not in this repository): the slice is permuted into
an order in which no later element is `less` than its immediate predecessor
(this is exactly `sort.IsSorted` for the given `less`). -/
def SortSliceSpec {α : Type} (less : α → α → Prop) (input output : List α) : Prop :=
  input.Perm output ∧ output.Chain' (fun a b => ¬ less b a)

/-- Claim C4: for records at haversine distances `[50, 10, 30, 5, 100, 20]`
miles from the reference point, any result of the `sort.Slice` ranking lists
them ascending, at distances `[5, 10, 20, 30, 50, 100]`, and the nearest-5
selection (the first five elements) excludes the 100-mile record. -/
theorem C4_ranking_sorts_by_distance (lat lng : ℝ) (b0 b1 b2 b3 b4 b5 : Bike)
    (h0 : bikeDistance lat lng b0 = 50) (h1 : bikeDistance lat lng b1 = 10)
    (h2 : bikeDistance lat lng b2 = 30) (h3 : bikeDistance lat lng b3 = 5)
    (h4 : bikeDistance lat lng b4 = 100) (h5 : bikeDistance lat lng b5 = 20)
    (out : List Bike)
    (hout : SortSliceSpec (bikeLess lat lng) [b0, b1, b2, b3, b4, b5] out) :
    out.map (bikeDistance lat lng) = [5, 10, 20, 30, 50, 100] ∧ b4 ∉ out.take 5 := by
  obtain ⟨hperm, hchain⟩ := hout
  have hmap : (List.map (bikeDistance lat lng) [b0, b1, b2, b3, b4, b5]).Perm
      (out.map (bikeDistance lat lng)) := hperm.map _
  rw [List.map_cons, List.map_cons, List.map_cons, List.map_cons, List.map_cons,
    List.map_cons, List.map_nil, h0, h1, h2, h3, h4, h5] at hmap
  have hnperm : ([50, 10, 30, 5, 100, 20] : List ℕ).Perm [5, 10, 20, 30, 50, 100] := by
    decide
  have hrperm := hnperm.map (fun n : ℕ => (n : ℝ))
  simp only [List.map_cons, List.map_nil] at hrperm
  norm_num at hrperm
  have hchain2 : (out.map (bikeDistance lat lng)).Chain' (· ≤ ·) :=
    (List.chain'_map _).mpr (hchain.imp fun a b h => not_lt.mp h)
  have hsorted : (out.map (bikeDistance lat lng)).Sorted (· ≤ ·) :=
    List.chain'_iff_pairwise.mp hchain2
  have htgt : ([5, 10, 20, 30, 50, 100] : List ℝ).Sorted (· ≤ ·) := by
    norm_num [List.sorted_cons]
  have heq : out.map (bikeDistance lat lng) = [5, 10, 20, 30, 50, 100] :=
    List.eq_of_perm_of_sorted (hmap.symm.trans hrperm) hsorted htgt
  refine ⟨heq, fun hmem => ?_⟩
  have h100 : (100 : ℝ) ∈ (out.map (bikeDistance lat lng)).take 5 := by
    rw [← List.map_take]
    exact h4 ▸ List.mem_map_of_mem _ hmem
  rw [heq] at h100
  norm_num at h100

/-- An example record on the equator whose haversine distance from `(0, 0)`
is exactly `n` miles: its longitude is `180 * n / (3958.756 * π)` degrees. -/
noncomputable def exBike (n : ℕ) : Bike :=
  { name := "bike", address := "addr", ebikeBatteryLevel := 0,
    currentPosition := { coordinates := (180 * (n : ℝ) / (3958.756 * Real.pi), 0) } }

/-- The example input list of claim C4: records at distances
`[50, 10, 30, 5, 100, 20]` miles from the origin. -/
noncomputable def exInput : List Bike :=
  [exBike 50, exBike 10, exBike 30, exBike 5, exBike 100, exBike 20]

/-- The ascending reordering of `exInput`. -/
noncomputable def exOutput : List Bike :=
  [exBike 5, exBike 10, exBike 20, exBike 30, exBike 50, exBike 100]

lemma exBike_dist (n : ℕ) (hn : n ≤ 1000) : bikeDistance 0 0 (exBike n) = n := by
  have hpi := Real.pi_gt_d6
  have hpi0 := Real.pi_pos
  have hR : (0 : ℝ) < 3958.756 * Real.pi := by nlinarith
  show distance 0 0 0 (180 * (n : ℝ) / (3958.756 * Real.pi)) = n
  have hlng0 : 0 ≤ 180 * (n : ℝ) / (3958.756 * Real.pi) := by positivity
  have hlng1 : 180 * (n : ℝ) / (3958.756 * Real.pi) ≤ 180 := by
    rw [div_le_iff₀ hR]
    have hcast : (n : ℝ) ≤ 1000 := by exact_mod_cast hn
    nlinarith
  rw [distance_equator _ hlng0 hlng1]
  field_simp

theorem C4_witness :
    SortSliceSpec (bikeLess 0 0) exInput exOutput ∧
    exOutput.map (bikeDistance 0 0) = [5, 10, 20, 30, 50, 100] ∧
    exBike 100 ∉ exOutput.take 5 := by
  have d50 := exBike_dist 50 (by norm_num)
  have d10 := exBike_dist 10 (by norm_num)
  have d30 := exBike_dist 30 (by norm_num)
  have d5 := exBike_dist 5 (by norm_num)
  have d100 := exBike_dist 100 (by norm_num)
  have d20 := exBike_dist 20 (by norm_num)
  norm_num at d50 d10 d30 d5 d100 d20
  have hperm : exInput.Perm exOutput := by
    have hn : ([50, 10, 30, 5, 100, 20] : List ℕ).Perm [5, 10, 20, 30, 50, 100] := by
      decide
    simpa [exInput, exOutput] using hn.map exBike
  have hchain : exOutput.Chain' (fun a b => ¬ bikeLess 0 0 b a) := by
    simp only [exOutput, List.chain'_cons, List.chain'_singleton, bikeLess,
      d5, d10, d20, d30, d50, d100]
    norm_num
  have hspec : SortSliceSpec (bikeLess 0 0) exInput exOutput := ⟨hperm, hchain⟩
  have happ := C4_ranking_sorts_by_distance 0 0 (exBike 50) (exBike 10) (exBike 30)
    (exBike 5) (exBike 100) (exBike 20) d50 d10 d30 d5 d100 d20 exOutput hspec
  exact ⟨hspec, happ.1, happ.2⟩

/-- Embeds `getEnvFloat` from `main.go`.  The process environment is an
oracle `env : String → Option String` (`os.LookupEnv`) and float parsing is an
oracle `parseFloat : String → Except String ℝ` (`strconv.ParseFloat`; the
error value is the parse error's message).  On a missing variable the error is
`envvar "<name>" not set`; on a parse failure the error is
`errors.Wrap(err, "error parsing env var \"%s\" as float")`, whose message is
the wrap text followed by `": "` and the underlying error — note the source
passes the format string unformatted, so the literal `%s` stays in the text. -/
def getEnvFloat (env : String → Option String)
    (parseFloat : String → Except String ℝ) (name : String) : Except String ℝ :=
  match env name with
  | none => .error ("envvar \"" ++ name ++ "\" not set")
  | some val =>
    match parseFloat val with
    | .error e => .error ("error parsing env var \"%s\" as float" ++ ": " ++ e)
    | .ok f => .ok f

/-- Claim C10: when an environment variable is set but does not parse as a
float, `getEnvFloat`'s error message is the literal wrap text
`error parsing env var "%s" as float` (the `%s` placeholder unformatted)
followed by the parse error; the message is the same for every variable name,
so the actual name is never substituted in. -/
theorem C10_parse_error_message_placeholder (env : String → Option String)
    (parseFloat : String → Except String ℝ) (name val e : String)
    (hset : env name = some val) (hparse : parseFloat val = .error e) :
    getEnvFloat env parseFloat name
      = .error ("error parsing env var \"%s\" as float" ++ ": " ++ e) ∧
    (∀ name' val', env name' = some val' → parseFloat val' = .error e →
      getEnvFloat env parseFloat name' = getEnvFloat env parseFloat name) := by
  constructor
  · simp [getEnvFloat, hset, hparse]
  · intro name' val' hset' hparse'
    simp [getEnvFloat, hset, hparse, hset', hparse']

theorem C10_witness :
    (fun n : String => if n = "LAT" then some "abc" else none) "LAT" = some "abc" ∧
    (fun _ : String => (Except.error "invalid syntax" : Except String ℝ)) "abc"
      = .error "invalid syntax" ∧
    getEnvFloat (fun n => if n = "LAT" then some "abc" else none)
        (fun _ => .error "invalid syntax") "LAT"
      = .error ("error parsing env var \"%s\" as float" ++ ": " ++ "invalid syntax") := by
  refine ⟨rfl, rfl, ?_⟩
  exact (C10_parse_error_message_placeholder
    (fun n => if n = "LAT" then some "abc" else none)
    (fun _ => .error "invalid syntax") "LAT" "abc" "invalid syntax" rfl rfl).1

/-- The events of the main control flow in `run` (`main.go` lines 21-96), in
the order the main goroutine performs them: client construction, launching
the two `doAsync` fetches, the two `select` waits on the one-shot `Done`
channels, the two `sort.Slice` calls, and the two print loops. -/
inductive Ev
  | newClient
  | startBikesFetch
  | startHubsFetch
  | waitBikes
  | sortBikes
  | printBikes
  | sortHubs
  | waitHubs
  | printHubs
deriving DecidableEq, Repr

/-- How `run` terminates: a `nil` error, a returned error, or a Go runtime
panic (the out-of-range slice `bikes[:5]` / `hubs[:5]`). -/
inductive ROutcome
  | ok
  | err (msg : String)
  | panicked (msg : String)
deriving DecidableEq, Repr

/-- One printed stdout line of `run`.  The `%0.2f`-formatted distance is
float formatting of the sort key and is not modelled; the claims under
verification only concern which result lines appear. -/
inductive Line
  | bikesHeader
  | bike (name addr : String) (battery : Int)
  | blank
  | hubsHeader
  | hub (name addr : String) (bikes : Int)
deriving DecidableEq, Repr

/-- The observable outcome of one goroutine launched by `doAsync`:
whether its `Done` channel closes before the racing 5-second
`time.After` timer fires, and the `(result, err)` pair it wrote. -/
structure FetchResult (α : Type) where
  timely : Bool
  result : Except String (List α)

/-- Go slice expression `xs[:5]`: defined only when `5 ≤ len(xs)`
(for a decoded slice the capacity equals the length), otherwise the program
panics with a slice-bounds error — modelled as `none`. -/
def goSlice5 {α : Type} (l : List α) : Option (List α) :=
  if 5 ≤ l.length then some (l.take 5) else none

/-- The result of one execution of `run`: the main-goroutine event trace, the
stdout lines printed, and the termination outcome. -/
structure RunRes where
  trace : List Ev
  lines : List Line
  out : ROutcome
deriving DecidableEq, Repr

/-- Embeds `run` (`main.go` lines 21-96), following the source line by line:
1. `getEnvFloat("LAT")`, `getEnvFloat("LNG")` — early error returns;
2. `jump.NewClient` and the two `doAsync` fetches;
3. `select` on `bikesDone` vs a 5s timer, then the `bikesErr` check;
4. `sort.Slice(bikes, ...)`, then the bikes print loop over `bikes[:5]`
   (the `Bikes` header prints before the slice expression panics on a short
   list), then a blank line;
5. `sort.Slice(hubs, ...)` — NOTE: in the source this happens at line 74,
   BEFORE the `select` on `hubsDone` at line 82, racing the hubs goroutine's
   write; the model takes the admissible schedule in which the goroutine's
   write completed first, so the sorted value is the fetched list (or `nil`
   when the fetch erred), which is what the later print loop observes;
6. `select` on `hubsDone` vs a 5s timer, then the `hubsErr` check;
7. the hubs print loop over `hubs[:5]`.
The two in-place `sort.Slice` calls are abstracted as the function parameters
`sortB`/`sortH` (their ordering contract is `SortSliceSpec`; the claims about
`run` do not depend on the order, only on the element count). -/
def run (env : String → Option String) (parseFloat : String → Except String ℝ)
    (bikesF : FetchResult Bike) (hubsF : FetchResult Hub)
    (sortB : List Bike → List Bike) (sortH : List Hub → List Hub) : RunRes :=
  match getEnvFloat env parseFloat "LAT" with
  | .error e => ⟨[], [], .err e⟩
  | .ok _lat =>
  match getEnvFloat env parseFloat "LNG" with
  | .error e => ⟨[], [], .err e⟩
  | .ok _lng =>
  let t0 : List Ev := [.newClient, .startBikesFetch, .startHubsFetch]
  let t1 := t0 ++ [.waitBikes]
  if bikesF.timely then
    match bikesF.result with
    | .error e => ⟨t1, [], .err e⟩
    | .ok bikes =>
    let sortedBikes := sortB bikes
    let t2 := t1 ++ [.sortBikes]
    match goSlice5 sortedBikes with
    | none =>
      ⟨t2 ++ [.printBikes], [.bikesHeader],
        .panicked "runtime error: slice bounds out of range"⟩
    | some firstFive =>
    let bikeLines := [Line.bikesHeader]
      ++ firstFive.map (fun b => Line.bike b.name b.address b.ebikeBatteryLevel)
      ++ [Line.blank]
    let t3 := t2 ++ [.printBikes]
    let hubsVal := match hubsF.result with
      | .ok hs => hs
      | .error _ => []
    let sortedHubs := sortH hubsVal
    let t4 := t3 ++ [.sortHubs]
    let t5 := t4 ++ [.waitHubs]
    if hubsF.timely then
      match hubsF.result with
      | .error e => ⟨t5, bikeLines, .err e⟩
      | .ok _ =>
      match goSlice5 sortedHubs with
      | none =>
        ⟨t5 ++ [.printHubs], bikeLines ++ [.hubsHeader],
          .panicked "runtime error: slice bounds out of range"⟩
      | some firstFiveHubs =>
        ⟨t5 ++ [.printHubs],
          bikeLines ++ [.hubsHeader]
            ++ firstFiveHubs.map
              (fun h => Line.hub h.name h.address (h.availableBikes + h.availableEbikes)),
          .ok⟩
    else ⟨t5, bikeLines, .err "timed out waiting for hubs response"⟩
  else ⟨t1, [], .err "timed out waiting for bikes response"⟩

/-- Claim C7: if the `LAT` or the `LNG` environment variable is absent, `run`
returns an error with an empty main-flow trace: the client is never
constructed and neither fetch is started. -/
theorem C7_missing_env_no_fetch (env : String → Option String)
    (parseFloat : String → Except String ℝ) (bikesF : FetchResult Bike)
    (hubsF : FetchResult Hub) (sortB : List Bike → List Bike)
    (sortH : List Hub → List Hub)
    (h : env "LAT" = none ∨ env "LNG" = none) :
    (run env parseFloat bikesF hubsF sortB sortH).trace = [] ∧
    ∃ e, (run env parseFloat bikesF hubsF sortB sortH).out = ROutcome.err e := by
  rcases h with h | h
  · refine ⟨?_, ⟨"envvar \"LAT\"" ++ " not set", ?_⟩⟩ <;>
      simp [run, getEnvFloat, h]
  · cases hLAT : getEnvFloat env parseFloat "LAT" with
    | error e1 => exact ⟨by simp [run, hLAT], ⟨e1, by simp [run, hLAT]⟩⟩
    | ok lat =>
      have hLNG : getEnvFloat env parseFloat "LNG"
          = .error ("envvar \"" ++ "LNG" ++ "\" not set") := by
        simp [getEnvFloat, h]
      refine ⟨?_, ⟨"envvar \"" ++ "LNG" ++ "\" not set", ?_⟩⟩ <;>
        simp [run, hLAT, hLNG]

/-- A concrete environment providing both coordinates. -/
def cEnv : String → Option String := fun n =>
  if n = "LAT" then some "37.77" else if n = "LNG" then some "-122.41" else none

/-- A concrete float-parsing oracle that accepts everything. -/
noncomputable def cParse : String → Except String ℝ := fun _ => .ok 0

/-- A concrete bike record. -/
noncomputable def cBike : Bike := ⟨"bike1", "addr1", 90, ⟨(0, 0)⟩⟩

/-- A concrete hub record. -/
noncomputable def cHub : Hub := ⟨"hub1", "addr2", 3, 2, ⟨(0, 0)⟩⟩

/-- A bikes fetch that succeeds in time with five records. -/
noncomputable def bikesOk5 : FetchResult Bike :=
  ⟨true, .ok [cBike, cBike, cBike, cBike, cBike]⟩

/-- A bikes fetch that succeeds in time with only three records. -/
noncomputable def bikesOk3 : FetchResult Bike := ⟨true, .ok [cBike, cBike, cBike]⟩

/-- A hubs fetch that succeeds in time with five records. -/
noncomputable def hubsOk5 : FetchResult Hub :=
  ⟨true, .ok [cHub, cHub, cHub, cHub, cHub]⟩

/-- A hubs fetch that fails with an upstream error. -/
noncomputable def hubsFailed : FetchResult Hub :=
  ⟨true, .error "jump.Hubs: got status code 500: oops"⟩

theorem C7_witness :
    ((fun _ : String => (none : Option String)) "LAT" = none ∨
      (fun _ : String => (none : Option String)) "LNG" = none) ∧
    (run (fun _ => none) cParse bikesOk5 hubsOk5 id id).trace = [] ∧
    ∃ e, (run (fun _ => none) cParse bikesOk5 hubsOk5 id id).out = ROutcome.err e := by
  have happ := C7_missing_env_no_fetch (fun _ => none) cParse bikesOk5 hubsOk5
    id id (Or.inl rfl)
  exact ⟨Or.inl rfl, happ.1, happ.2⟩

/-- Claim C1 is a code bug: the nearest-5 selection does not clamp.  With a
successful bikes fetch returning only three records, `run` reaches
`bikes[:5]` and panics with a slice-bounds error instead of printing all
three records. -/
theorem C1_short_list_slice_panics :
    bikesOk3.result = Except.ok [cBike, cBike, cBike] ∧
    goSlice5 [cBike, cBike, cBike] = none ∧
    (run cEnv cParse bikesOk3 hubsOk5 id id).out
      = ROutcome.panicked "runtime error: slice bounds out of range" := by
  refine ⟨rfl, rfl, by decide⟩

/-- Claim C2 is refuted as stated: here the hubs fetch fails, yet the bikes
result lines have already been printed — the failed run produces partial
output rather than discarding the bikes results. -/
theorem C2_counterexample_partial_output :
    (∃ eh, hubsFailed.result = Except.error eh) ∧
    (run cEnv cParse bikesOk5 hubsFailed id id).out
      = ROutcome.err "jump.Hubs: got status code 500: oops" ∧
    Line.bike "bike1" "addr1" 90 ∈ (run cEnv cParse bikesOk5 hubsFailed id id).lines := by
  exact ⟨⟨_, rfl⟩, by decide, by decide⟩

/-- Claim C2, amended: a run that returns an error prints no hub result
lines; and when the failure is in the bikes phase (timeout or bikes fetch
error), no result lines are printed at all.  But a hubs-phase failure leaves
the already-printed bikes section on stdout (see the counterexample). -/
theorem C2_failed_run_prints_no_hub_lines
    (env : String → Option String) (parseFloat : String → Except String ℝ)
    (bikesF : FetchResult Bike) (hubsF : FetchResult Hub)
    (sortB : List Bike → List Bike) (sortH : List Hub → List Hub) (e : String)
    (herr : (run env parseFloat bikesF hubsF sortB sortH).out = ROutcome.err e) :
    (Line.hubsHeader ∉ (run env parseFloat bikesF hubsF sortB sortH).lines ∧
      ∀ n a c, Line.hub n a c ∉ (run env parseFloat bikesF hubsF sortB sortH).lines) ∧
    ((bikesF.timely = false ∨ ∃ eb, bikesF.result = Except.error eb) →
      (run env parseFloat bikesF hubsF sortB sortH).lines = []) := by
  cases hLAT : getEnvFloat env parseFloat "LAT" with
  | error e1 => simp [run, hLAT]
  | ok lat =>
  cases hLNG : getEnvFloat env parseFloat "LNG" with
  | error e1 => simp [run, hLAT, hLNG]
  | ok lng =>
  cases ht : bikesF.timely with
  | false => simp [run, hLAT, hLNG, ht]
  | true =>
  cases hres : bikesF.result with
  | error e1 => simp [run, hLAT, hLNG, ht, hres]
  | ok bikes =>
  cases h5 : goSlice5 (sortB bikes) with
  | none => simp [run, hLAT, hLNG, ht, hres, h5] at herr
  | some firstFive =>
  cases hht : hubsF.timely with
  | false =>
    refine ⟨⟨?_, fun n a c => ?_⟩, fun hcon => absurd hcon (by simp)⟩ <;>
      simp [run, hLAT, hLNG, ht, hres, h5, hht]
  | true =>
  cases hhres : hubsF.result with
  | error e1 =>
    refine ⟨⟨?_, fun n a c => ?_⟩, fun hcon => absurd hcon (by simp)⟩ <;>
      simp [run, hLAT, hLNG, ht, hres, h5, hht, hhres]
  | ok hubs =>
  cases hh5 : goSlice5 (sortH hubs) with
  | none => simp [run, hLAT, hLNG, ht, hres, h5, hht, hhres, hh5] at herr
  | some f5 => simp [run, hLAT, hLNG, ht, hres, h5, hht, hhres, hh5] at herr

theorem C2_failed_run_prints_no_hub_lines_witness :
    (run cEnv cParse bikesOk5 hubsFailed id id).out
      = ROutcome.err "jump.Hubs: got status code 500: oops" ∧
    Line.hubsHeader ∉ (run cEnv cParse bikesOk5 hubsFailed id id).lines ∧
    ∀ n a c, Line.hub n a c ∉ (run cEnv cParse bikesOk5 hubsFailed id id).lines := by
  exact ⟨by decide, (C2_failed_run_prints_no_hub_lines cEnv cParse bikesOk5 hubsFailed
    id id "jump.Hubs: got status code 500: oops" (by decide)).1.1,
    (C2_failed_run_prints_no_hub_lines cEnv cParse bikesOk5 hubsFailed
    id id "jump.Hubs: got status code 500: oops" (by decide)).1.2⟩

/-- Claim C3 is a code bug: in a fully successful run the main flow's trace
shows `sort.Slice(hubs, ...)` (line 74) happening strictly before the
`select` on `hubsDone` (line 82) — the hubs list is sorted before the hubs
completion signal is received, racing the hubs goroutine's write. -/
theorem C3_hubs_sorted_before_wait :
    (run cEnv cParse bikesOk5 hubsOk5 id id).trace
      = [.newClient, .startBikesFetch, .startHubsFetch, .waitBikes, .sortBikes,
          .printBikes, .sortHubs, .waitHubs, .printHubs] ∧
    ∃ pre post, (run cEnv cParse bikesOk5 hubsOk5 id id).trace
      = pre ++ Ev.sortHubs :: Ev.waitHubs :: post := by
  exact ⟨by decide,
    ⟨[.newClient, .startBikesFetch, .startHubsFetch, .waitBikes, .sortBikes, .printBikes],
      [.printHubs], by decide⟩⟩

/-- A minimal JSON value, to model `encoding/json` decoding of the response
envelope. -/
inductive Jval
  | null
  | num (q : ℚ)
  | str (s : String)
  | jsonBool (b : Bool)
  | arr (items : List Jval)
  | obj (fields : List (String × Jval))

/-- Elementwise decoding of a JSON array into a Go slice: the whole decode
fails if any element fails. -/
def mapExcept {α β : Type} (f : α → Except String β) :
    List α → Except String (List β)
  | [] => .ok []
  | x :: xs =>
    match f x with
    | .error e => .error e
    | .ok y =>
      match mapExcept f xs with
      | .error e => .error e
      | .ok ys => .ok (y :: ys)

/-- `encoding/json` unmarshalling of a JSON value into one of the
envelope's `int64` pagination fields (the `bikesResponse` / `hubResponse`
struct tags `current_position`, `per_page`, `total_entries`): JSON `null`
is ignored, an integral JSON number is accepted (int64 range overflow is
not modelled), and any other value is an `UnmarshalTypeError`. -/
def decodeIntField (v : Jval) : Except String Unit :=
  match v with
  | .null => .ok ()
  | .num q =>
    if q.den = 1 then .ok ()
    else .error "json: cannot unmarshal number into field of type int64"
  | _ => .error "json: cannot unmarshal value into field of type int64"

/-- One pass of `json.Decode` over the key/value pairs of the envelope
object in document order, accumulating the `Items` slice (initially its
zero value `nil`): the three `int64` pagination keys must hold `null` or
an integral number; an `items` key holding `null` sets the slice to `nil`,
an array decodes elementwise through `decodeItem`, and any other value is
a type error; unknown keys are ignored; the first failure aborts the
decode, as `json.Decoder.Decode` stops at the first error. -/
def decodeEnvelopeFields {α : Type} (decodeItem : Jval → Except String α) :
    List (String × Jval) → List α → Except String (List α)
  | [], acc => .ok acc
  | (k, v) :: rest, acc =>
    if k = "current_position" ∨ k = "per_page" ∨ k = "total_entries" then
      match decodeIntField v with
      | .error e => .error e
      | .ok _ => decodeEnvelopeFields decodeItem rest acc
    else if k = "items" then
      match v with
      | .null => decodeEnvelopeFields decodeItem rest []
      | .arr xs =>
        match mapExcept decodeItem xs with
        | .error e => .error e
        | .ok ys => decodeEnvelopeFields decodeItem rest ys
      | _ => .error "json: cannot unmarshal value into field items"
    else
      decodeEnvelopeFields decodeItem rest acc

/-- `encoding/json` unmarshalling of the response envelope
(`bikesResponse` / `hubResponse`), parametrized by the per-item decoder
(itself `encoding/json` machinery outside this repository): a body that is
not a JSON object cannot populate the struct; otherwise the fields decode
in document order by `decodeEnvelopeFields`, so an ill-typed pagination
field or `items` value surfaces as a decode error, while absent keys leave
their fields at their zero values (`nil`, the empty list, for `items`). -/
def decodeItems {α : Type} (decodeItem : Jval → Except String α) :
    Jval → Except String (List α)
  | .obj fields => decodeEnvelopeFields decodeItem fields []
  | _ => .error "json: cannot unmarshal value into response struct"

/-- An HTTP response as the `jump` client consumes it: the status code, the
`ioutil.ReadAll` outcome of the body (used in the non-200 branch), and the
`json.Decoder.Decode` outcome of the body (used in the 200 branch).  Each
oracle carries the error message on failure. -/
structure HttpResponse where
  statusCode : ℕ
  bodyRead : Except String String
  bodyJson : Except String Jval

/-- Outcome of request construction plus `httpClient.Do`: either a transport
error or a response. -/
inductive Transport
  | connError (e : String)
  | response (r : HttpResponse)

/-- Embeds `Client.Bikes` of the `jump` package.  `errors.Wrap(err, p)`
renders as `p ++ ": " ++ err`.  On a non-200 status the body text is read
(on read failure the placeholder `could not parse body (<err>)` stands in)
and the method fails with `got status code <code>: <body>`, wrapped with the
`jump.Bikes` prefix; on 200 the JSON envelope is decoded and its items list
returned. -/
def clientBikes (decodeBike : Jval → Except String Bike) :
    Transport → Except String (List Bike)
  | .connError e => .error ("jump.Bikes" ++ ": " ++ e)
  | .response r =>
    if r.statusCode ≠ 200 then
      .error ("jump.Bikes" ++ ": " ++ ("got status code " ++ toString r.statusCode
        ++ ": " ++ (match r.bodyRead with
          | .ok b => b
          | .error e => "could not parse body (" ++ e ++ ")")))
    else
      match r.bodyJson with
      | .error e => .error ("jump.Bikes" ++ ": " ++ e)
      | .ok j =>
        match decodeItems decodeBike j with
        | .error e => .error ("jump.Bikes" ++ ": " ++ e)
        | .ok items => .ok items

/-- Embeds `Client.Hubs` of the `jump` package; structurally identical to
`Client.Bikes` with the `jump.Hubs` wrap prefix and the hub item type. -/
def clientHubs (decodeHub : Jval → Except String Hub) :
    Transport → Except String (List Hub)
  | .connError e => .error ("jump.Hubs" ++ ": " ++ e)
  | .response r =>
    if r.statusCode ≠ 200 then
      .error ("jump.Hubs" ++ ": " ++ ("got status code " ++ toString r.statusCode
        ++ ": " ++ (match r.bodyRead with
          | .ok b => b
          | .error e => "could not parse body (" ++ e ++ ")")))
    else
      match r.bodyJson with
      | .error e => .error ("jump.Hubs" ++ ": " ++ e)
      | .ok j =>
        match decodeItems decodeHub j with
        | .error e => .error ("jump.Hubs" ++ ": " ++ e)
        | .ok items => .ok items

/-- `sub` occurs as a contiguous substring of `s`. -/
def StrContains (s sub : String) : Prop := ∃ pre post, s = pre ++ sub ++ post

lemma strContains_appendLeft (a sub b : String) (h : StrContains a sub) :
    StrContains (a ++ b) sub := by
  obtain ⟨pre, post, rfl⟩ := h
  exact ⟨pre, post ++ b, by simp [String.append_assoc]⟩

lemma strContains_appendRight (a sub b : String) (h : StrContains b sub) :
    StrContains (a ++ b) sub := by
  obtain ⟨pre, post, rfl⟩ := h
  exact ⟨a ++ pre, post, by simp [String.append_assoc]⟩

lemma strContains_self (s : String) : StrContains s s :=
  ⟨"", "", by simp⟩

lemma non200_error_core (p : String) (code : ℕ) (br : Except String String) :
    StrContains (p ++ ": " ++ ("got status code " ++ toString code ++ ": "
      ++ (match br with
        | .ok b => b
        | .error e => "could not parse body (" ++ e ++ ")"))) (toString code) ∧
    (∀ b, br = .ok b →
      StrContains (p ++ ": " ++ ("got status code " ++ toString code ++ ": "
        ++ (match br with
          | .ok b' => b'
          | .error e => "could not parse body (" ++ e ++ ")"))) b) ∧
    (∀ msg, br = .error msg →
      StrContains (p ++ ": " ++ ("got status code " ++ toString code ++ ": "
        ++ (match br with
          | .ok b' => b'
          | .error e => "could not parse body (" ++ e ++ ")"))) "could not parse body") := by
  cases br with
  | ok b =>
    refine ⟨?_, ?_, ?_⟩
    · exact strContains_appendRight _ _ _ (strContains_appendLeft _ _ _
        (strContains_appendLeft _ _ _ (strContains_appendRight _ _ _ (strContains_self _))))
    · intro b' hb'
      obtain rfl : b = b' := by simpa using hb'
      exact strContains_appendRight _ _ _ (strContains_appendRight _ _ _ (strContains_self _))
    · intro msg hmsg
      exact absurd hmsg (by simp)
  | error e =>
    refine ⟨?_, ?_, ?_⟩
    · exact strContains_appendRight _ _ _ (strContains_appendLeft _ _ _
        (strContains_appendLeft _ _ _ (strContains_appendRight _ _ _ (strContains_self _))))
    · intro b' hb'
      exact absurd hb' (by simp)
    · intro msg hmsg
      have hstart : StrContains "could not parse body (" "could not parse body" :=
        ⟨"", " (", by decide⟩
      exact strContains_appendRight _ _ _ (strContains_appendRight _ _ _
        (strContains_appendLeft _ _ _ (strContains_appendLeft _ _ _ hstart)))

/-- Claim C6: whenever a fetch (`Client.Bikes` or `Client.Hubs`) receives a
non-200 HTTP status, it returns an error whose text contains the numeric
status code, and either the response body text (when the body was read) or
the placeholder `could not parse body` (when the read failed). -/
theorem C6_non200_error_mentions_status (decodeBike : Jval → Except String Bike)
    (decodeHub : Jval → Except String Hub) (r : HttpResponse)
    (hstatus : r.statusCode ≠ 200) :
    (∃ e, clientBikes decodeBike (.response r) = .error e ∧
      StrContains e (toString r.statusCode) ∧
      (∀ b, r.bodyRead = .ok b → StrContains e b) ∧
      (∀ msg, r.bodyRead = .error msg → StrContains e "could not parse body")) ∧
    (∃ e, clientHubs decodeHub (.response r) = .error e ∧
      StrContains e (toString r.statusCode) ∧
      (∀ b, r.bodyRead = .ok b → StrContains e b) ∧
      (∀ msg, r.bodyRead = .error msg → StrContains e "could not parse body")) := by
  have hb := non200_error_core "jump.Bikes" r.statusCode r.bodyRead
  have hh := non200_error_core "jump.Hubs" r.statusCode r.bodyRead
  refine ⟨⟨_, ?_, hb.1, hb.2.1, hb.2.2⟩, ⟨_, ?_, hh.1, hh.2.1, hh.2.2⟩⟩
  · simp [clientBikes, hstatus]
  · simp [clientHubs, hstatus]

/-- A concrete non-200 response whose body reads as `not found`. -/
def cResp : HttpResponse := ⟨404, .ok "not found", .error "eof"⟩

/-- A concrete per-item bike decoder. -/
def cDecodeBike : Jval → Except String Bike := fun _ => .error "bad bike"

/-- A concrete per-item hub decoder. -/
def cDecodeHub : Jval → Except String Hub := fun _ => .error "bad hub"

theorem C6_witness :
    cResp.statusCode ≠ 200 ∧
    ((∃ e, clientBikes cDecodeBike (.response cResp) = .error e ∧
      StrContains e (toString cResp.statusCode) ∧
      (∀ b, cResp.bodyRead = .ok b → StrContains e b) ∧
      (∀ msg, cResp.bodyRead = .error msg → StrContains e "could not parse body")) ∧
    (∃ e, clientHubs cDecodeHub (.response cResp) = .error e ∧
      StrContains e (toString cResp.statusCode) ∧
      (∀ b, cResp.bodyRead = .ok b → StrContains e b) ∧
      (∀ msg, cResp.bodyRead = .error msg → StrContains e "could not parse body"))) :=
  ⟨by decide, C6_non200_error_mentions_status cDecodeBike cDecodeHub cResp (by decide)⟩

end BikeAlert
